import Mathlib

/-!
Verification of the audio-authenticity decision engine and session ledger
of the vox web client (`src/ai-voice-web/src/App.jsx`).

The decision logic lives in `handleAnalyze` and the export logic in
`handleDownloadHistory`.  The source file contains several revisions of the
component; following the design notes, the authoritative revision is the one
with the two-tier risk score and the hard override (lines 780-919), and that
is the one embedded here.  JavaScript numbers are modelled as rationals,
nullable backend fields as `Option`, and the two operator thresholds are
passed explicitly.
-/

namespace Vox

/-- The JSON payload returned by the backend, as read by `handleAnalyze`:
`data.prob_real`, `data.prob_fake`, `data.verdict`, `data.iso_score`,
`data.has_enrollment`, `data.similarity`.  Absent or null fields are `none`. -/
structure AnalyzeData where
  prob_real : Option ℚ
  prob_fake : Option ℚ
  verdict : Option String
  iso_score : Option ℚ
  has_enrollment : Bool
  similarity : Option ℚ
deriving DecidableEq

/-- Source: `const probReal = Number(data.prob_real ?? 0)`; a missing or null
probability is coerced to 0. -/
def probReal (d : AnalyzeData) : ℚ := d.prob_real.getD 0

/-- Source: `const probFake = Number(data.prob_fake ?? 0)`. -/
def probFake (d : AnalyzeData) : ℚ := d.prob_fake.getD 0

/-- JavaScript `toLowerCase` (character-wise lower-casing), written so the
kernel can evaluate it. -/
def toLowerCase (s : String) : String := String.mk (s.data.map Char.toLower)

/-- Source: `const backendVerdict = (data.verdict || "").toLowerCase()`;
a missing or null verdict string becomes the empty string. -/
def backendVerdict (d : AnalyzeData) : String := toLowerCase (d.verdict.getD "")

/-- The spoof-probability check: `probReal < 0.6` (first reason push). -/
def spoofFails (d : AnalyzeData) : Bool := decide (probReal d < 0.6)

/-- The anomaly check: `isoScore !== null && isoScore < anomalyThr`
(second reason push). -/
def anomalyFails (d : AnalyzeData) (anomalyThr : ℚ) : Bool :=
  match d.iso_score with
  | none => false
  | some s => decide (s < anomalyThr)

/-- The identity-mismatch check:
`data.has_enrollment && similarity !== null && similarity < similarityThr`
(third reason push). -/
def idFails (d : AnalyzeData) (similarityThr : ℚ) : Bool :=
  d.has_enrollment &&
    match d.similarity with
    | none => false
    | some s => decide (s < similarityThr)

/-- The `reasons` array: each failing check pushes one fixed string, in the
source order spoof, anomaly, speaker mismatch. -/
def reasons (d : AnalyzeData) (anomalyThr similarityThr : ℚ) : List String :=
  (if spoofFails d then ["Spoof model: low real probability"] else []) ++
  (if anomalyFails d anomalyThr then ["Anomaly detector: unusual embedding"] else []) ++
  (if idFails d similarityThr then ["Speaker mismatch: low similarity"] else [])

/-- Source: `let baseVerdict = "ACCEPT"; if (backendVerdict === "fake" &&
probFake > 0.6) baseVerdict = "REJECT"`. -/
def baseVerdict (d : AnalyzeData) : String :=
  if backendVerdict d = "fake" ∧ probFake d > 0.6 then "REJECT" else "ACCEPT"

/-- Source: `finalVerdict` is ACCEPT when the base verdict is ACCEPT and `reasons` is
empty, REJECT when the base verdict is REJECT, otherwise SUSPICIOUS. -/
def finalVerdict (d : AnalyzeData) (anomalyThr similarityThr : ℚ) : String :=
  if baseVerdict d = "ACCEPT" ∧ (reasons d anomalyThr similarityThr).length = 0 then
    "ACCEPT"
  else if baseVerdict d = "REJECT" then "REJECT"
  else "SUSPICIOUS"

/-- Base risk from `prob_real`: 0 when `probReal >= 0.75`, 1 when
`probReal >= 0.5`, otherwise 2. -/
def baseRisk (d : AnalyzeData) : ℕ :=
  if probReal d ≥ 0.75 then 0
  else if probReal d ≥ 0.5 then 1
  else 2

/-- Source: `riskScore` is the base risk plus one for a failed anomaly check plus one for a
failed speaker-mismatch check. -/
def riskScore (d : AnalyzeData) (anomalyThr similarityThr : ℚ) : ℕ :=
  baseRisk d +
    (if anomalyFails d anomalyThr then 1 else 0) +
    (if idFails d similarityThr then 1 else 0)

/-- Source: `riskString` applies the hard rule High when `probReal < 0.5`; otherwise Low for a
score of at most 1, Medium for 2, High for 3 or more. -/
def riskString (d : AnalyzeData) (anomalyThr similarityThr : ℚ) : String :=
  if probReal d < 0.5 then "High"
  else if riskScore d anomalyThr similarityThr ≤ 1 then "Low"
  else if riskScore d anomalyThr similarityThr = 2 then "Medium"
  else "High"

/-- One row of the session history, as pushed by `setHistory`. -/
structure HistoryEntry where
  file : String
  verdict : String
  probReal : ℚ
  probFake : ℚ
  risk : String
deriving DecidableEq

/-- Source: `setHistory((prev) => [newEntry, ...prev])`: the newest record is
prepended, so the history list is newest-first. -/
def appendHistory (e : HistoryEntry) (history : List HistoryEntry) :
    List HistoryEntry :=
  e :: history

/-- JavaScript `x.toFixed(3)` on a rational: round `x * 1000` to the nearest
integer (ties away from the smaller value, as ECMA prescribes) and print it
with exactly three digits after the decimal point. -/
def toFixed3 (q : ℚ) : String :=
  let n : ℤ := round (q * 1000)
  let m : ℕ := n.natAbs
  (if n < 0 then "-" else "") ++ (m / 1000).repr ++ "." ++
    String.mk [Nat.digitChar (m / 100 % 10), Nat.digitChar (m / 10 % 10),
      Nat.digitChar (m % 10)]

/-- Source: `const header = [...]` joined with commas by `header.join(",")`. -/
def exportHeader : String :=
  String.intercalate "," ["index", "file", "verdict", "prob_real", "prob_fake", "risk"]

/-- One CSV row, from `[history.length - idx, h.file, h.verdict,
h.probReal.toFixed(3), h.probFake.toFixed(3), h.risk].join(",")`,
with the reverse-chronological index already computed. -/
def exportRow (idx : ℕ) (e : HistoryEntry) : String :=
  String.intercalate ","
    [idx.repr, e.file, e.verdict, toFixed3 e.probReal, toFixed3 e.probFake, e.risk]

/-- Source: `history.map((h, idx) => ...)`: each record paired with its position,
newest first, and rendered with index `history.length - idx`. -/
def exportRows (history : List HistoryEntry) : List String :=
  history.enum.map fun p => exportRow (history.length - p.1) p.2

/-- Source: `handleDownloadHistory` bails out with no file when the history is empty,
otherwise join the header row and the data rows with newlines. -/
def handleDownloadHistory (history : List HistoryEntry) : Option String :=
  if history.length = 0 then none
  else some (String.intercalate "\n" (exportHeader :: exportRows history))

/-- Number of failed checks, used to state the reason-count property. -/
def failCount (d : AnalyzeData) (anomalyThr similarityThr : ℚ) : ℕ :=
  (if spoofFails d then 1 else 0) +
    (if anomalyFails d anomalyThr then 1 else 0) +
    (if idFails d similarityThr then 1 else 0)

/-- Input whose backend verdict string is "real" while `prob_fake` is 0.9. -/
def cexDataC1 : AnalyzeData :=
  { prob_real := some 0.9, prob_fake := some 0.9, verdict := some "real",
    iso_score := none, has_enrollment := false, similarity := none }

/-- Input whose backend verdict string is "FAKE" with `prob_fake` 0.7. -/
def wDataC1 : AnalyzeData :=
  { prob_real := some 0.9, prob_fake := some 0.7, verdict := some "FAKE",
    iso_score := none, has_enrollment := false, similarity := none }

/-- Borderline input: `prob_real` 0.55, failing anomaly and similarity checks. -/
def wDataC2 : AnalyzeData :=
  { prob_real := some 0.55, prob_fake := some 0.45, verdict := some "real",
    iso_score := some (-0.2), has_enrollment := true, similarity := some 0.7 }

/-- Confidently-fake input: `prob_real` 0.3. -/
def wDataC3 : AnalyzeData :=
  { prob_real := some 0.3, prob_fake := some 0.7, verdict := some "fake",
    iso_score := some 1, has_enrollment := true, similarity := some 1 }

/-- Input on which all three checks fail. -/
def cexDataC4 : AnalyzeData :=
  { prob_real := some 0.55, prob_fake := some 0.45, verdict := some "real",
    iso_score := some (-0.2), has_enrollment := true, similarity := some 0.7 }

/-- Input with no anomaly score, no enrollment and no similarity score. -/
def wDataC7 : AnalyzeData :=
  { prob_real := some 0.9, prob_fake := some 0.1, verdict := some "real",
    iso_score := none, has_enrollment := false, similarity := none }

/-- Input whose score source omitted both probabilities. -/
def wDataC10 : AnalyzeData :=
  { prob_real := none, prob_fake := none, verdict := some "fake",
    iso_score := none, has_enrollment := false, similarity := none }

/-- A single accepted history record. -/
def wEntryC9 : HistoryEntry :=
  { file := "a.wav", verdict := "ACCEPT", probReal := 0.9, probFake := 0.1,
    risk := "Low" }

/-! ## Theorems -/

/-- Helper: the reasons list is empty exactly when no check failed. -/
theorem reasons_eq_nil_iff (d : AnalyzeData) (a s : ℚ) :
    reasons d a s = [] ↔
      spoofFails d = false ∧ anomalyFails d a = false ∧ idFails d s = false := by
  unfold reasons
  cases hs : spoofFails d <;> cases ha : anomalyFails d a <;>
    cases hi : idFails d s <;> simp

/-- Claim C6: the length of `reasons` equals the number of failed checks, and
`reasons` is empty exactly when no check failed. -/
theorem vox_C6 (d : AnalyzeData) (a s : ℚ) :
    (reasons d a s).length = failCount d a s ∧
    (reasons d a s = [] ↔ failCount d a s = 0) := by
  unfold reasons failCount
  cases hs : spoofFails d <;> cases ha : anomalyFails d a <;>
    cases hi : idFails d s <;> simp

/-- Claim C5: the final verdict is exactly one of ACCEPT, REJECT, SUSPICIOUS;
it is ACCEPT exactly when the base verdict is ACCEPT and no check failed,
REJECT exactly when the base verdict is REJECT, and SUSPICIOUS exactly when
the base verdict is ACCEPT and some check failed. -/
theorem vox_C5 (d : AnalyzeData) (a s : ℚ) :
    (finalVerdict d a s = "ACCEPT" ∨ finalVerdict d a s = "REJECT" ∨
      finalVerdict d a s = "SUSPICIOUS") ∧
    (finalVerdict d a s = "ACCEPT" ↔
      baseVerdict d = "ACCEPT" ∧ spoofFails d = false ∧
        anomalyFails d a = false ∧ idFails d s = false) ∧
    (finalVerdict d a s = "REJECT" ↔ baseVerdict d = "REJECT") ∧
    (finalVerdict d a s = "SUSPICIOUS" ↔
      baseVerdict d = "ACCEPT" ∧
        ¬(spoofFails d = false ∧ anomalyFails d a = false ∧
            idFails d s = false)) := by
  have hAR : ("ACCEPT" : String) ≠ "REJECT" := by decide
  have hRS : ("REJECT" : String) ≠ "SUSPICIOUS" := by decide
  have hAS : ("ACCEPT" : String) ≠ "SUSPICIOUS" := by decide
  unfold finalVerdict baseVerdict reasons
  by_cases hbv : backendVerdict d = "fake" ∧ probFake d > 0.6 <;>
    cases hs : spoofFails d <;> cases ha : anomalyFails d a <;>
      cases hi : idFails d s <;>
        simp [hbv, hAR, hRS, hAS, hAR.symm, hRS.symm, hAS.symm]

/-- Claim C3: an input with `probReal < 0.5` always gets risk tier High. -/
theorem vox_C3 (d : AnalyzeData) (a s : ℚ) (h : probReal d < 0.5) :
    riskString d a s = "High" := by
  unfold riskString
  rw [if_pos h]

/-- Witness for C3 at a concrete confidently-fake input. -/
theorem vox_C3_witness :
    probReal wDataC3 < 0.5 ∧ riskString wDataC3 1 1 = "High" :=
  ⟨by norm_num [probReal, wDataC3],
    vox_C3 wDataC3 1 1 (by norm_num [probReal, wDataC3])⟩

/-- Claim C2: the risk score is the stated sum, and when the hard override
does not apply the risk tier is Low for a score of at most 1, Medium for 2
and High for 3 or more. -/
theorem vox_C2 (d : AnalyzeData) (a s : ℚ) :
    riskScore d a s =
      (if probReal d < 0.5 then 2 else if probReal d < 0.75 then 1 else 0) +
        (if anomalyFails d a then 1 else 0) +
        (if idFails d s then 1 else 0) ∧
    (¬ probReal d < 0.5 →
      riskString d a s =
        if riskScore d a s ≤ 1 then "Low"
        else if riskScore d a s = 2 then "Medium"
        else "High") := by
  constructor
  · have hbase : baseRisk d =
        (if probReal d < 0.5 then 2 else if probReal d < 0.75 then 1 else 0) := by
      unfold baseRisk
      by_cases h1 : probReal d < 0.5
      · rw [if_pos h1, if_neg (by linarith : ¬ probReal d ≥ 0.75),
          if_neg (by linarith : ¬ probReal d ≥ 0.5)]
      · by_cases h2 : probReal d < 0.75
        · rw [if_neg h1, if_neg (by linarith : ¬ probReal d ≥ 0.75),
            if_pos (by linarith : probReal d ≥ 0.5), if_pos h2]
        · rw [if_neg h1, if_pos (by linarith : probReal d ≥ 0.75), if_neg h2]
    unfold riskScore
    rw [hbase]
  · intro h
    unfold riskString
    rw [if_neg h]

/-- Witness for C2 at a borderline input with both threshold checks failing. -/
theorem vox_C2_witness :
    ¬ probReal wDataC2 < 0.5 ∧
    riskScore wDataC2 0 0.8 =
      (if probReal wDataC2 < 0.5 then 2
        else if probReal wDataC2 < 0.75 then 1 else 0) +
        (if anomalyFails wDataC2 0 then 1 else 0) +
        (if idFails wDataC2 0.8 then 1 else 0) ∧
    riskString wDataC2 0 0.8 =
      if riskScore wDataC2 0 0.8 ≤ 1 then "Low"
      else if riskScore wDataC2 0 0.8 = 2 then "Medium"
      else "High" :=
  ⟨by norm_num [probReal, wDataC2], (vox_C2 wDataC2 0 0.8).1,
    (vox_C2 wDataC2 0 0.8).2 (by norm_num [probReal, wDataC2])⟩

/-- Counterexample to C1 as stated: `prob_fake` is 0.9 but the backend verdict
string is "real", so the base verdict stays ACCEPT and the final verdict is
not REJECT. -/
theorem vox_C1_counterexample :
    probFake cexDataC1 > 0.6 ∧ finalVerdict cexDataC1 0 0.8 ≠ "REJECT" := by
  have hpr : probReal cexDataC1 = 0.9 := rfl
  have hs : spoofFails cexDataC1 = false := by
    simp [spoofFails, hpr]
    norm_num
  have ha : anomalyFails cexDataC1 0 = false := rfl
  have hi : idFails cexDataC1 0.8 = false := rfl
  have hbv : backendVerdict cexDataC1 = "real" := by decide
  have hbase : baseVerdict cexDataC1 = "ACCEPT" := by
    unfold baseVerdict
    rw [if_neg]
    rintro ⟨h1, -⟩
    rw [hbv] at h1
    exact absurd h1 (by decide)
  have hfin : finalVerdict cexDataC1 0 0.8 = "ACCEPT" := by
    unfold finalVerdict
    rw [hbase]
    simp [reasons, hs, ha, hi]
  refine ⟨by norm_num [probFake, cexDataC1], ?_⟩
  rw [hfin]
  decide

/-- Claim C1 (amended): when the backend verdict string lower-cases to "fake"
and `prob_fake` exceeds 0.6, the final verdict is REJECT regardless of every
other field and threshold. -/
theorem vox_C1_amended (d : AnalyzeData) (a s : ℚ)
    (h1 : backendVerdict d = "fake") (h2 : probFake d > 0.6) :
    finalVerdict d a s = "REJECT" := by
  have hbase : baseVerdict d = "REJECT" := by
    unfold baseVerdict
    exact if_pos ⟨h1, h2⟩
  unfold finalVerdict
  rw [hbase]
  have hne : ¬(("REJECT" : String) = "ACCEPT" ∧ (reasons d a s).length = 0) := by
    rintro ⟨hc, -⟩
    exact absurd hc (by decide)
  rw [if_neg hne, if_pos rfl]

/-- Witness for the amended C1 at a concrete input (verdict string "FAKE"). -/
theorem vox_C1_witness :
    backendVerdict wDataC1 = "fake" ∧ probFake wDataC1 > 0.6 ∧
      finalVerdict wDataC1 0 0.8 = "REJECT" :=
  ⟨by decide, by norm_num [probFake, wDataC1],
    vox_C1_amended wDataC1 0 0.8 (by decide) (by norm_num [probFake, wDataC1])⟩

/-- Counterexample to C4 as stated: on an input failing all three checks the
reasons appear spoof first and speaker mismatch last, not the other way
round. -/
theorem vox_C4_counterexample :
    (reasons cexDataC4 0 0.8).length = 3 ∧
    reasons cexDataC4 0 0.8 =
      ["Spoof model: low real probability", "Anomaly detector: unusual embedding",
        "Speaker mismatch: low similarity"] ∧
    reasons cexDataC4 0 0.8 ≠
      ["Speaker mismatch: low similarity", "Anomaly detector: unusual embedding",
        "Spoof model: low real probability"] := by
  have hs : spoofFails cexDataC4 = true := by
    simp [spoofFails, probReal, cexDataC4]
    norm_num
  have ha : anomalyFails cexDataC4 0 = true := by
    simp [anomalyFails, cexDataC4]
    norm_num
  have hi : idFails cexDataC4 0.8 = true := by
    simp [idFails, cexDataC4]
    norm_num
  have hr : reasons cexDataC4 0 0.8 =
      ["Spoof model: low real probability", "Anomaly detector: unusual embedding",
        "Speaker mismatch: low similarity"] := by
    simp [reasons, hs, ha, hi]
  exact ⟨by rw [hr]; rfl, hr, by rw [hr]; decide⟩

/-- Claim C4 (amended): the reasons always appear as a sublist of the fixed
order spoof-probability, anomaly, speaker mismatch. -/
theorem vox_C4_amended (d : AnalyzeData) (a s : ℚ) :
    List.Sublist (reasons d a s)
      ["Spoof model: low real probability", "Anomaly detector: unusual embedding",
        "Speaker mismatch: low similarity"] := by
  unfold reasons
  show List.Sublist _
    ((["Spoof model: low real probability"] ++
      ["Anomaly detector: unusual embedding"]) ++
        ["Speaker mismatch: low similarity"])
  refine List.Sublist.append (List.Sublist.append ?_ ?_) ?_ <;> split <;> simp

/-- Claim C7: an absent anomaly score deactivates the anomaly check (no
reason, no risk penalty), and a missing enrollment or similarity deactivates
the identity-mismatch check. -/
theorem vox_C7 (d : AnalyzeData) (a s : ℚ) :
    (d.iso_score = none →
      anomalyFails d a = false ∧
      "Anomaly detector: unusual embedding" ∉ reasons d a s ∧
      riskScore d a s = baseRisk d + (if idFails d s then 1 else 0)) ∧
    (d.has_enrollment = false ∨ d.similarity = none →
      idFails d s = false ∧
      "Speaker mismatch: low similarity" ∉ reasons d a s ∧
      riskScore d a s = baseRisk d + (if anomalyFails d a then 1 else 0)) := by
  constructor
  · intro h
    have ha : anomalyFails d a = false := by
      unfold anomalyFails
      rw [h]
    refine ⟨ha, ?_, ?_⟩
    · unfold reasons
      rw [ha]
      cases spoofFails d <;> cases idFails d s <;> simp
    · unfold riskScore
      rw [ha]
      simp
  · intro h
    have hi : idFails d s = false := by
      unfold idFails
      rcases h with h | h <;> simp [h]
    refine ⟨hi, ?_, ?_⟩
    · unfold reasons
      rw [hi]
      cases spoofFails d <;> cases anomalyFails d a <;> simp
    · unfold riskScore
      rw [hi]
      simp

/-- Witness for C7 at an input with no anomaly score and no enrollment, under
thresholds that a zero stand-in value would trip. -/
theorem vox_C7_witness :
    anomalyFails wDataC7 1 = false ∧ idFails wDataC7 1 = false :=
  ⟨((vox_C7 wDataC7 1 1).1 rfl).1, ((vox_C7 wDataC7 1 1).2 (Or.inl rfl)).1⟩

/-- Claim C10: when both probabilities are absent they are coerced to 0, so
the spoof check fails, the base verdict stays ACCEPT, the final verdict is
SUSPICIOUS and the risk tier is High. -/
theorem vox_C10 (d : AnalyzeData) (a s : ℚ)
    (h1 : d.prob_real = none) (h2 : d.prob_fake = none) :
    probReal d = 0 ∧ probFake d = 0 ∧ spoofFails d = true ∧
      baseVerdict d = "ACCEPT" ∧ finalVerdict d a s = "SUSPICIOUS" ∧
      riskString d a s = "High" := by
  have hpr : probReal d = 0 := by simp [probReal, h1]
  have hpf : probFake d = 0 := by simp [probFake, h2]
  have hs : spoofFails d = true := by
    simp [spoofFails, hpr]
    norm_num
  have hbase : baseVerdict d = "ACCEPT" := by
    unfold baseVerdict
    rw [if_neg]
    rintro ⟨-, hgt⟩
    rw [hpf] at hgt
    norm_num at hgt
  have hlen : (reasons d a s).length ≠ 0 := by
    unfold reasons
    rw [hs]
    cases anomalyFails d a <;> cases idFails d s <;> simp
  have hfin : finalVerdict d a s = "SUSPICIOUS" := by
    unfold finalVerdict
    rw [hbase]
    rw [if_neg (by rintro ⟨-, hc⟩; exact hlen hc)]
    rw [if_neg (by intro hc; exact absurd hc (by decide))]
  have hrisk : riskString d a s = "High" := by
    unfold riskString
    rw [if_pos (by rw [hpr]; norm_num)]
  exact ⟨hpr, hpf, hs, hbase, hfin, hrisk⟩

/-- Witness for C10 at a concrete input with both probabilities missing. -/
theorem vox_C10_witness :
    probReal wDataC10 = 0 ∧ probFake wDataC10 = 0 ∧
      spoofFails wDataC10 = true ∧ baseVerdict wDataC10 = "ACCEPT" ∧
      finalVerdict wDataC10 0 0.8 = "SUSPICIOUS" ∧
      riskString wDataC10 0 0.8 = "High" :=
  vox_C10 wDataC10 0 0.8 rfl rfl

/-- Claim C8: exporting an empty ledger produces no file at all. -/
theorem vox_C8 : handleDownloadHistory [] = none := rfl

/-- Helper: a digit character is never the decimal point. -/
theorem digitChar_mod_ne_dot (k : ℕ) : (Nat.digitChar (k % 10) != '.') = true := by
  have h : k % 10 < 10 := Nat.mod_lt _ (by norm_num)
  generalize k % 10 = r at h ⊢
  interval_cases r <;> decide

/-- Helper: shifting the starting index of an enumeration by one shifts every
rendered export index by one. -/
theorem enumFrom_exportRow_shift (t : List HistoryEntry) :
    ∀ (n L : ℕ),
      ((List.enumFrom (n + 1) t).map fun p => exportRow (L + 1 - p.1) p.2) =
        ((List.enumFrom n t).map fun p => exportRow (L - p.1) p.2) := by
  induction t with
  | nil => intro n L; rfl
  | cons e t ih =>
      intro n L
      show exportRow (L + 1 - (n + 1)) e ::
          ((List.enumFrom (n + 2) t).map fun p => exportRow (L + 1 - p.1) p.2) =
        exportRow (L - n) e ::
          ((List.enumFrom (n + 1) t).map fun p => exportRow (L - p.1) p.2)
      rw [Nat.succ_sub_succ, ih (n + 1) L]

/-- Helper: the export rows of a newest-first history start with the newest
record carrying index `length`, followed by the rows of the older records. -/
theorem exportRows_cons (e : HistoryEntry) (t : List HistoryEntry) :
    exportRows (e :: t) = exportRow (t.length + 1) e :: exportRows t := by
  unfold exportRows
  rw [List.enum_cons]
  show exportRow ((e :: t).length - 0) e ::
      ((List.enumFrom 1 t).map fun p => exportRow ((e :: t).length - p.1) p.2) = _
  have h1 : (e :: t).length = t.length + 1 := rfl
  simp only [h1, Nat.sub_zero]
  rw [show (1 : ℕ) = 0 + 1 from rfl, enumFrom_exportRow_shift t 0 t.length]
  rfl

/-- Helper: one export row per history record. -/
theorem exportRows_length (h : List HistoryEntry) :
    (exportRows h).length = h.length := by
  unfold exportRows
  rw [List.length_map, List.enum_length]

/-- Helper: the row at position `i` renders the record at position `i` with
reverse-chronological index `length - i`. -/
theorem exportRows_get (h : List HistoryEntry) :
    ∀ (i : ℕ) (hi : i < h.length) (hi2 : i < (exportRows h).length),
      (exportRows h).get ⟨i, hi2⟩ = exportRow (h.length - i) (h.get ⟨i, hi⟩) := by
  induction h with
  | nil => intro i hi; exact absurd hi (Nat.not_lt_zero i)
  | cons e t ih =>
      intro i hi hi2
      cases i with
      | zero => simp [exportRows_cons]
      | succ i =>
          have hit : i < t.length := Nat.lt_of_succ_lt_succ hi
          have hit2 : i < (exportRows t).length := by
            rw [exportRows_length]; exact hit
          have hcons : (exportRows (e :: t)).get ⟨i + 1, hi2⟩ =
              (exportRows t).get ⟨i, hit2⟩ := by
            simp [exportRows_cons]
          rw [hcons, ih i hit hit2]
          have hlen : (e :: t).length - (i + 1) = t.length - i := by
            simp [Nat.succ_sub_succ]
          rw [hlen, List.get_cons_succ]

/-- Helper: `toFixed3` always renders exactly three characters after the
decimal point. -/
theorem toFixed3_decimals (q : ℚ) :
    (((toFixed3 q).data.reverse).takeWhile fun c => c != '.').length = 3 := by
  unfold toFixed3
  simp only [String.data_append]
  have hdot : (('.' : Char) != '.') = false := rfl
  simp [List.reverse_append, List.takeWhile_cons, digitChar_mod_ne_dot, hdot]

/-- Claim C9: for a non-empty ledger the export is the exact header followed
by one comma-separated row per record in newest-first order, the row at
position `i` carrying reverse-chronological index `length - i` (so the newest
row carries the ledger size and the oldest carries 1), with both
probabilities rendered with exactly three decimal places. -/
theorem vox_C9 (h : List HistoryEntry) (hne : h ≠ []) :
    handleDownloadHistory h =
      some (String.intercalate "\n"
        ("index,file,verdict,prob_real,prob_fake,risk" :: exportRows h)) ∧
    (exportRows h).length = h.length ∧
    (∀ (i : ℕ) (hi : i < h.length) (hi2 : i < (exportRows h).length),
      (exportRows h).get ⟨i, hi2⟩ =
        String.intercalate ","
          [(h.length - i).repr, (h.get ⟨i, hi⟩).file, (h.get ⟨i, hi⟩).verdict,
            toFixed3 (h.get ⟨i, hi⟩).probReal, toFixed3 (h.get ⟨i, hi⟩).probFake,
            (h.get ⟨i, hi⟩).risk]) ∧
    (∀ q : ℚ,
      (((toFixed3 q).data.reverse).takeWhile fun c => c != '.').length = 3) := by
  refine ⟨?_, exportRows_length h, ?_, toFixed3_decimals⟩
  · unfold handleDownloadHistory
    rw [if_neg (fun hc => hne (List.length_eq_zero.mp hc))]
    have hh : exportHeader = "index,file,verdict,prob_real,prob_fake,risk" := rfl
    rw [hh]
  · intro i hi hi2
    rw [exportRows_get h i hi hi2]
    rfl

/-- Witness for C9 on a one-record ledger, evaluated to the literal file
contents. -/
theorem vox_C9_witness :
    ([wEntryC9] : List HistoryEntry) ≠ [] ∧
    handleDownloadHistory [wEntryC9] =
      some "index,file,verdict,prob_real,prob_fake,risk\n1,a.wav,ACCEPT,0.900,0.100,Low" := by
  have hne : ([wEntryC9] : List HistoryEntry) ≠ [] := by simp
  refine ⟨hne, ?_⟩
  rw [(vox_C9 [wEntryC9] hne).1]
  have h9 : toFixed3 wEntryC9.probReal = "0.900" := by
    norm_num [toFixed3, wEntryC9, round_eq]
    decide
  have h1 : toFixed3 wEntryC9.probFake = "0.100" := by
    norm_num [toFixed3, wEntryC9, round_eq]
    decide
  have hrows : exportRows [wEntryC9] = [exportRow 1 wEntryC9] := by
    rw [exportRows_cons]
    rfl
  rw [hrows]
  unfold exportRow
  rw [h9, h1]
  decide

end Vox
